import Mathlib

/-!
Verification development for the health_bot repository.

Shallow embedding of the two source files:
  * `src/actions/actions.py` — the Rasa custom actions
    (`ActionHealthAdviceMultilingual`, `ActionSymptomCheckerMultilingual`):
    language detection, prompt composition, generation, response assembly.
  * `src/whatsapp_webhook.py` — the Flask/Twilio inbound gateway
    (`send_message_to_rasa`, `send_whatsapp_message`, `whatsapp_webhook`).

External services (the Gemini generative model, the Rasa REST endpoint,
the Twilio send API) are modelled as oracles supplied through environment
records; a `none` / `exn` oracle result models the corresponding Python
call raising an exception.  Strings are Lean `String`s; the PIL image
object is an opaque handle.
-/

namespace HealthBot

/-- Opaque handle standing for the decoded PIL image object
(the result of `process_image_from_url`); only its identity matters. -/
abbrev Image := Nat

/-- One element of the `content_parts` list handed to
`model.generate_content`: either the PIL image or a text prompt. -/
inductive ContentPart where
  | image (img : Image)
  | text (s : String)
deriving DecidableEq

/-- Oracle environment for the two Gemini calls made by `actions.py`.
`classify` is the `model.generate_content(detection_prompt)` call inside
`detect_language` (argument: the detection prompt; `none` = the call threw).
`generate` is the `model.generate_content(content_parts)` call inside `run`
(`none` = the call threw). -/
structure GeminiEnv where
  classify : String → Option String
  generate : List ContentPart → Option String

/-- Python `str.lower()`; the ASCII case mapping suffices for the
language codes this program compares against. -/
def pyLower (s : String) : String := String.mk (s.data.map Char.toLower)

/-- Python `str.strip()`: drop leading and trailing whitespace. -/
def pyStrip (s : String) : String :=
  String.mk (((s.data.dropWhile Char.isWhitespace).reverse.dropWhile Char.isWhitespace).reverse)

/-- Python `str.startswith(pre)`. -/
def pyStartsWith (s pre : String) : Bool := pre.data.isPrefixOf s.data

/-- Left-to-right replacement of every occurrence of `pat` with `repl`, with
fuel bounding the scan length (structural recursion so it evaluates). -/
def replaceFuel (pat repl : List Char) : Nat → List Char → List Char
  | 0, l => l
  | _ + 1, [] => []
  | fuel + 1, c :: rest =>
      if pat.isPrefixOf (c :: rest) && pat != [] then
        repl ++ replaceFuel pat repl fuel (List.drop pat.length (c :: rest))
      else c :: replaceFuel pat repl fuel rest

/-- Python `str.replace(pat, repl)` for a non-empty pattern, as the source
uses it (`sender.replace("whatsapp:", "")`). -/
def pyReplace (s pat repl : String) : String :=
  String.mk (replaceFuel pat.data repl.data s.data.length s.data)

/-- Python `dict.get(key, default)` on a string-keyed literal dict,
with the dict embedded as an association list in source order. -/
def dictGet (d : List (String × String)) (k : String) (default : String) : String :=
  match d.lookup k with
  | some v => v
  | none => default

/-- `valid_langs = ['en', 'hi', 'te']` from `detect_language`. -/
def valid_langs : List String := ["en", "hi", "te"]

/-- The f-string `detection_prompt` built inside `detect_language`
(lines 28–37 of `actions.py`), with the user text interpolated. -/
def detection_prompt (text : String) : String :=
  String.intercalate "\n"
    [ ""
    , "            Detect the language of this text and respond with ONLY the language code:"
    , "            - en (English)"
    , "            - hi (Hindi) "
    , "            - te (Telugu)"
    , "            "
    , "            Text: \"" ++ text ++ "\""
    , "            "
    , "            Respond with only the language code (e.g., \"hi\", \"en\", \"te\")."
    , "            " ]

namespace ActionHealthAdviceMultilingual

/-- `ActionHealthAdviceMultilingual.detect_language`: sends the detection
prompt to Gemini, strips and lowercases the reply, keeps it only when it is
one of `valid_langs`, and returns `'en'` on any other reply or on any
exception (the surrounding `try`/`except`). -/
def detect_language (env : GeminiEnv) (text : String) : String :=
  match env.classify (detection_prompt text) with
  | some replyText =>
      let detected_lang := pyLower (pyStrip replyText)
      if valid_langs.contains detected_lang then detected_lang else "en"
  | none => "en"

/-- `lang_map` literal of `get_language_name`. -/
def lang_map : List (String × String) :=
  [("en", "English"), ("hi", "Hindi"), ("te", "Telugu")]

/-- `get_language_name`: `lang_map.get(lang_code, 'English')`. -/
def get_language_name (lang_code : String) : String :=
  dictGet lang_map lang_code "English"

/-- The (text + image) f-string `health_prompt` of `run`
(lines 135–164 of `actions.py`). -/
def health_prompt_text_image (lang_name detected_lang user_message : String) : String :=
  String.intercalate "\n"
    [ ""
    , "                You are a multilingual health awareness assistant for rural and semi-urban India."
    , "                "
    , "                DETECTED LANGUAGE: " ++ lang_name ++ " (" ++ detected_lang ++ ")"
    , "                "
    , "                The user has shared an image along with this question: \"" ++ user_message ++ "\""
    , "                "
    , "                INSTRUCTIONS:"
    , "                1. Analyze the provided image carefully"
    , "                2. Respond in the SAME language as the user's question: " ++ lang_name
    , "                3. Use simple, easy-to-understand language suitable for rural/semi-urban populations"
    , "                4. Focus ONLY on:"
    , "                   - Health-related observations from the image (symptoms, conditions, injuries, etc.)"
    , "                   - Preventive healthcare measures related to what you see"
    , "                   - General health tips and wellness advice"
    , "                   - When to seek professional medical help"
    , "                   - Basic first aid if applicable"
    , "                   - Hygiene and safety recommendations"
    , "                "
    , "                IMPORTANT RESTRICTIONS:"
    , "                - NEVER provide specific medical diagnoses"
    , "                - NEVER recommend specific medications or treatments"
    , "                - NEVER replace professional medical advice"
    , "                - Always suggest consulting local healthcare professionals, PHCs, or ASHA workers"
    , "                - Keep responses concise and practical for WhatsApp"
    , "                - Use culturally appropriate advice for Indian context"
    , "                - If the image shows serious conditions, emphasize immediate medical attention"
    , "                "
    , "                Analyze the image and answer the user's question in " ++ lang_name ++ "."
    , "                " ]

/-- The image-only f-string `health_prompt` of `run`
(lines 167–194 of `actions.py`). -/
def health_prompt_image_only (lang_name detected_lang : String) : String :=
  String.intercalate "\n"
    [ ""
    , "                You are a multilingual health awareness assistant for rural and semi-urban India."
    , "                "
    , "                LANGUAGE: " ++ lang_name ++ " (" ++ detected_lang ++ ")"
    , "                "
    , "                The user has shared an image without any specific question."
    , "                "
    , "                INSTRUCTIONS:"
    , "                1. Analyze the provided image carefully"
    , "                2. Respond in " ++ lang_name
    , "                3. Use simple, easy-to-understand language suitable for rural/semi-urban populations"
    , "                4. Provide general health observations and advice based on what you see"
    , "                5. Focus on:"
    , "                   - Health-related observations (if any)"
    , "                   - Preventive healthcare measures"
    , "                   - General wellness advice"
    , "                   - When to seek professional medical help"
    , "                   - Safety recommendations"
    , "                "
    , "                IMPORTANT RESTRICTIONS:"
    , "                - NEVER provide specific medical diagnoses"
    , "                - NEVER recommend specific medications"
    , "                - Always suggest consulting healthcare professionals for serious concerns"
    , "                - Keep responses practical for WhatsApp"
    , "                - If you see concerning health issues, emphasize medical consultation"
    , "                "
    , "                Describe what you observe and provide appropriate health guidance in " ++ lang_name ++ "."
    , "                " ]

/-- The text-only f-string `health_prompt` of `run`
(lines 197–226 of `actions.py`, the original functionality). -/
def health_prompt_text_only (lang_name detected_lang user_message : String) : String :=
  String.intercalate "\n"
    [ ""
    , "                You are a multilingual health awareness assistant for rural and semi-urban India. "
    , "                "
    , "                DETECTED LANGUAGE: " ++ lang_name ++ " (" ++ detected_lang ++ ")"
    , "                "
    , "                INSTRUCTIONS:"
    , "                1. Respond in the SAME language as the user's question: " ++ lang_name
    , "                2. Use simple, easy-to-understand language suitable for rural/semi-urban populations"
    , "                3. Focus ONLY on:"
    , "                   - Preventive healthcare measures"
    , "                   - General health tips and wellness advice  "
    , "                   - Recognizing disease symptoms for awareness"
    , "                   - Encouraging healthy lifestyle habits"
    , "                   - When to seek professional medical help"
    , "                   - Basic hygiene and sanitation practices"
    , "                   - Nutrition and dietary advice for prevention"
    , "                "
    , "                IMPORTANT RESTRICTIONS:"
    , "                - NEVER provide specific medical diagnoses"
    , "                - NEVER recommend specific medications or treatments"
    , "                - NEVER replace professional medical advice"
    , "                - Always suggest consulting local healthcare professionals, PHCs, or ASHA workers"
    , "                - Keep responses concise and practical for WhatsApp"
    , "                - Use culturally appropriate advice for Indian context"
    , "                - Mention government healthcare schemes when relevant (Ayushman Bharat, etc.)"
    , "                "
    , "                USER QUESTION (in " ++ lang_name ++ "): " ++ user_message
    , "                "
    , "                Provide helpful health awareness information in " ++ lang_name ++ ", keeping it simple and culturally appropriate for rural India."
    , "                " ]

/-- The `disclaimers` dict literal of `run` (lines 235–239). -/
def disclaimer_en : String :=
  "\n\n⚠️ *Remember: This is general health information. Always consult a healthcare professional, PHC, or ASHA worker for personalized medical advice.*"

/-- Hindi entry of the `disclaimers` dict. -/
def disclaimer_hi : String :=
  "\n\n⚠️ *याद रखें: यह सामान्य स्वास्थ्य जानकारी है। व्यक्तिगत चिकित्सा सलाह के लिए हमेशा स्वास्थ्य पेशेवर, PHC या आशा कार्यकर्ता से सलाह लें।*"

/-- Telugu entry of the `disclaimers` dict. -/
def disclaimer_te : String :=
  "\n\n⚠️ *గుర్తుంచుకోండి: ఇది సాధారణ ఆరోగ్య సమాచారం. వ్యక్తిగత వైద్య సలహా కోసం ఎల్లప్పుడూ ఆరోగ్య నిపుణుడు, PHC లేదా ఆశా కార్యకర్తను సంప్రదించండి.*"

/-- The `disclaimers` dict of `run`; looked up with
`disclaimers.get(detected_lang, disclaimers['en'])`. -/
def disclaimers : List (String × String) :=
  [("en", disclaimer_en), ("hi", disclaimer_hi), ("te", disclaimer_te)]

/-- English entry of the `image_confirmations` dict (lines 247–251). -/
def image_confirmation_en : String := "\n📷 *Image analyzed successfully*"

/-- Hindi entry of the `image_confirmations` dict. -/
def image_confirmation_hi : String := "\n📷 *छवि का सफलतापूर्वक विश्लेषण किया गया*"

/-- Telugu entry of the `image_confirmations` dict. -/
def image_confirmation_te : String := "\n📷 *చిత్రం విజయవంతంగా విశ్లేషించబడింది*"

/-- The `image_confirmations` dict of `run`. -/
def image_confirmations : List (String × String) :=
  [("en", image_confirmation_en), ("hi", image_confirmation_hi), ("te", image_confirmation_te)]

/-- English entry of the `error_messages` dict (lines 260–264). -/
def error_message_en : String :=
  "Sorry, I couldn't process your request right now. Please try again."

/-- Hindi entry of the `error_messages` dict. -/
def error_message_hi : String :=
  "क्षमा करें, मैं अभी आपके अनुरोध को संसाधित नहीं कर सका। कृपया पुनः प्रयास करें।"

/-- Telugu entry of the `error_messages` dict. -/
def error_message_te : String :=
  "క్షమించండి, నేను ఇప్పుడు మీ అభ్యర్థనను ప్రాసెస్ చేయలేకపోయాను. దయచేసి మళ్లీ ప్రయత్నించండి।"

/-- The `error_messages` dict of the `except` branch of `run`. -/
def error_messages : List (String × String) :=
  [("en", error_message_en), ("hi", error_message_hi), ("te", error_message_te)]

/-- Language decision at the top of `run` (lines 117–120):
`detect_language(user_message)` when the text is non-empty (Python truthiness),
else the `'en'` default. -/
def detected_lang_of (env : GeminiEnv) (user_message : String) : String :=
  if user_message != "" then detect_language env user_message else "en"

/-- Prompt selection of `run` (lines 133–226): the three mutually exclusive
f-string templates keyed on which of image / user text are present. -/
def health_prompt_of (detected_lang user_message : String) (image : Option Image) : String :=
  let lang_name := get_language_name detected_lang
  if image.isSome && user_message != "" then
    health_prompt_text_image lang_name detected_lang user_message
  else if image.isSome && !(user_message != "") then
    health_prompt_image_only lang_name detected_lang
  else
    health_prompt_text_only lang_name detected_lang user_message

/-- `content_parts` of `run` (lines 126–130 and 229): the image first when
present, then the composed `health_prompt`. -/
def content_parts_of (env : GeminiEnv) (user_message : String) (image : Option Image) :
    List ContentPart :=
  (match image with
    | some img => [ContentPart.image img]
    | none => []) ++
  [ContentPart.text (health_prompt_of (detected_lang_of env user_message) user_message image)]

/-- Texts passed to `dispatcher.utter_message` by one call of `run`:
on successful generation, the model text plus the language-matched
disclaimer, with the image-confirmation banner prepended when an image was
analyzed (lines 232–255); when `model.generate_content` throws, the
language-matched static error message (lines 257–267). -/
def messages_of (env : GeminiEnv) (user_message : String) (image : Option Image) :
    List String :=
  let detected_lang := detected_lang_of env user_message
  match env.generate (content_parts_of env user_message image) with
  | some response_text =>
      let disclaimer := dictGet disclaimers detected_lang disclaimer_en
      let bot_response := response_text ++ disclaimer
      let bot_response :=
        if image.isSome then
          dictGet image_confirmations detected_lang image_confirmation_en ++ "\n\n" ++ bot_response
        else bot_response
      [bot_response]
  | none =>
      [dictGet error_messages detected_lang error_message_en]

/-- Observable outcome of one call of `ActionHealthAdviceMultilingual.run`. -/
structure RunResult where
  /-- How many Gemini language-classification calls were issued. -/
  detect_calls : Nat
  /-- The `detected_lang` variable of `run`. -/
  detected_lang : String
  /-- The `content_parts` list sent to `model.generate_content`. -/
  content_parts : List ContentPart
  /-- Whether `model.generate_content(content_parts)` was invoked. -/
  generate_called : Bool
  /-- The texts uttered through the dispatcher, in order. -/
  messages : List String
  /-- The list of events returned by `run` (always `[]` in the source). -/
  events : List Unit
deriving DecidableEq

/-- `ActionHealthAdviceMultilingual.run` (lines 102–269), for a tracker whose
latest message carries text `user_message` (`''` when absent) and whose image
extraction produced `image`.  Exactly one classification call is issued when
the text is non-empty; `model.generate_content` is always reached (nothing in
the `try` block before it can throw), and exactly one message is uttered. -/
def run (env : GeminiEnv) (user_message : String) (image : Option Image) : RunResult :=
  { detect_calls := if user_message != "" then 1 else 0
    detected_lang := detected_lang_of env user_message
    content_parts := content_parts_of env user_message image
    generate_called := true
    messages := messages_of env user_message image
    events := [] }

end ActionHealthAdviceMultilingual

namespace ActionSymptomCheckerMultilingual

/-- `ActionSymptomCheckerMultilingual.run` (lines 276–282): instantiates
`ActionHealthAdviceMultilingual` and delegates to its `run`. -/
def run (env : GeminiEnv) (user_message : String) (image : Option Image) :
    ActionHealthAdviceMultilingual.RunResult :=
  ActionHealthAdviceMultilingual.run env user_message image

end ActionSymptomCheckerMultilingual

/-! Embedding of `src/whatsapp_webhook.py`. -/

/-- One entry of the Rasa REST response list: a JSON object that may or may
not carry a `"text"` field (other fields are irrelevant to the gateway). -/
structure RasaMsg where
  text : Option String
deriving DecidableEq

/-- Outcome of the `session.post(RASA_SERVER_URL, ...)` call inside
`send_message_to_rasa`: an HTTP status with the decoded JSON list, or `exn`
when the call (or the JSON decoding) raised. -/
inductive RasaPostResult where
  | ok (status : Nat) (responses : List RasaMsg)
  | exn
deriving DecidableEq

/-- True exactly when the post did not come back as HTTP 200
(`resp.status == 200` is the only success test in the source). -/
def RasaPostResult.isFailure : RasaPostResult → Bool
  | .ok status _ => status != 200
  | .exn => true

/-- Oracle environment for the gateway.  `post sender message` is the
dialogue-engine call for the forwarded `{"sender": ..., "message": ...}`
payload.  `internal_exn` models the `except` arm of `whatsapp_webhook`
firing (an exception in the event-loop plumbing before any send). -/
structure GatewayEnv where
  post : String → String → RasaPostResult
  internal_exn : Bool

/-- The static fallback text of `send_message_to_rasa`. -/
def rasa_fallback_text : String :=
  "Sorry, I'm having trouble right now. Please try again later."

/-- `send_message_to_rasa(message, sender)`: forwards to the Rasa REST
endpoint; returns the decoded response list on HTTP 200, and the
single-entry static fallback list on any other status or on exception. -/
def send_message_to_rasa (env : GatewayEnv) (message sender : String) : List RasaMsg :=
  match env.post sender message with
  | .ok status responses =>
      if status == 200 then responses else [{ text := some rasa_fallback_text }]
  | .exn => [{ text := some rasa_fallback_text }]

/-- Recipient normalization done at the top of `send_whatsapp_message`:
prefix `whatsapp:` onto the `to` argument when absent. -/
def send_whatsapp_message_recipient (recipient : String) : String :=
  if pyStartsWith recipient "whatsapp:" then recipient else "whatsapp:" ++ recipient

/-- Serialization of an empty Twilio `MessagingResponse()` — the body
`whatsapp_webhook` always returns (external library constant). -/
def empty_twiml : String :=
  "<?xml version=\"1.0\" encoding=\"UTF-8\"?><Response />"

/-- Observable outcome of one POST to the `/whatsapp` route. -/
structure WebhookResult where
  /-- Whether anything was forwarded to the Rasa endpoint. -/
  forwarded : Bool
  /-- The Twilio sends attempted, in order, as (recipient, body) pairs. -/
  sends : List (String × String)
  /-- HTTP status of the reply to the provider. -/
  status : Nat
  /-- Content type of the reply. -/
  mimetype : String
  /-- Body of the reply. -/
  body : String
deriving DecidableEq

/-- `whatsapp_webhook` (lines 76–110): reads `From` and `Body` from the form
(`''` default); when both are non-empty (Python truthiness), strips
`whatsapp:` from the sender, forwards to Rasa through
`send_message_to_rasa`, and attempts one Twilio send per response entry
carrying a `"text"` field; otherwise skips processing.  In every path —
including the `except` arm — it replies with the empty TwiML
acknowledgment, content type `text/xml`, HTTP 200. -/
def whatsapp_webhook (env : GatewayEnv) (form_From form_Body : Option String) :
    WebhookResult :=
  if env.internal_exn then
    { forwarded := false, sends := [], status := 200, mimetype := "text/xml",
      body := empty_twiml }
  else
    let sender := form_From.getD ""
    let message_body := form_Body.getD ""
    if sender != "" && message_body != "" then
      let clean_sender := pyReplace sender "whatsapp:" ""
      let responses := send_message_to_rasa env message_body clean_sender
      let sends := responses.filterMap fun r =>
        r.text.map fun t => (send_whatsapp_message_recipient sender, t)
      { forwarded := true, sends := sends, status := 200, mimetype := "text/xml",
        body := empty_twiml }
    else
      { forwarded := false, sends := [], status := 200, mimetype := "text/xml",
        body := empty_twiml }

/-! Spec-side definitions, for refinement comparison with the code's
dictionary lookups. -/

open ActionHealthAdviceMultilingual

/-- Spec-side template choice (from the spec's words, for comparison): the
disclaimer matching the detected code, with English used for any other code. -/
def spec_disclaimer_for (lang : String) : String :=
  if lang = "hi" then disclaimer_hi
  else if lang = "te" then disclaimer_te
  else disclaimer_en

/-- Spec-side template choice (from the spec's words, for comparison): the
error text matching the detected code, with English used for any other code. -/
def spec_error_for (lang : String) : String :=
  if lang = "hi" then error_message_hi
  else if lang = "te" then error_message_te
  else error_message_en

/-! Helper lemmas. -/

/-- Whatever the classifier replies, `detect_language` lands in
`valid_langs`. -/
theorem detect_language_mem (env : GeminiEnv) (text : String) :
    detect_language env text ∈ valid_langs := by
  unfold detect_language
  cases h : env.classify (detection_prompt text) with
  | none => simp [valid_langs]
  | some replyText =>
      show (if valid_langs.contains (pyLower (pyStrip replyText)) = true
            then pyLower (pyStrip replyText) else "en") ∈ valid_langs
      by_cases hc : valid_langs.contains (pyLower (pyStrip replyText)) = true
      · rw [if_pos hc]
        exact List.mem_of_elem_eq_true hc
      · rw [if_neg hc]
        simp [valid_langs]

/-- The code's disclaimer lookup agrees with the spec-side choice on every
language code. -/
theorem dictGet_disclaimers_spec (lang : String) :
    dictGet disclaimers lang disclaimer_en = spec_disclaimer_for lang := by
  by_cases h1 : lang = "en"
  · subst h1; rfl
  by_cases h2 : lang = "hi"
  · subst h2; rfl
  by_cases h3 : lang = "te"
  · subst h3; rfl
  have e1 : (lang == "en") = false := beq_eq_false_iff_ne.mpr h1
  have e2 : (lang == "hi") = false := beq_eq_false_iff_ne.mpr h2
  have e3 : (lang == "te") = false := beq_eq_false_iff_ne.mpr h3
  simp [dictGet, disclaimers, List.lookup, spec_disclaimer_for, e1, e2, e3, h1, h2, h3]

/-- The code's error-text lookup agrees with the spec-side choice on every
language code. -/
theorem dictGet_error_messages_spec (lang : String) :
    dictGet error_messages lang error_message_en = spec_error_for lang := by
  by_cases h1 : lang = "en"
  · subst h1; rfl
  by_cases h2 : lang = "hi"
  · subst h2; rfl
  by_cases h3 : lang = "te"
  · subst h3; rfl
  have e1 : (lang == "en") = false := beq_eq_false_iff_ne.mpr h1
  have e2 : (lang == "hi") = false := beq_eq_false_iff_ne.mpr h2
  have e3 : (lang == "te") = false := beq_eq_false_iff_ne.mpr h3
  simp [dictGet, error_messages, List.lookup, spec_error_for, e1, e2, e3, h1, h2, h3]

/-! Claim theorems. -/

/-- C1: for every inbound message whose text is empty, the
language-detection step returns English immediately and no external
classification call is made. -/
theorem empty_text_short_circuits_detection (env : GeminiEnv) (image : Option Image) :
    (run env "" image).detect_calls = 0
    ∧ (run env "" image).detected_lang = "en" :=
  ⟨rfl, rfl⟩

/-- C2: `detect_language` lowercases and trims the classifier's reply and
keeps it only when it is one of en/hi/te, returning English on any other
reply or on classification failure; hence the detected language is always
in that closed set, and the disclaimer and error templates chosen by the
dict lookups always match the detected code, English for any other code. -/
theorem detect_language_valid_and_templates (env : GeminiEnv) (text : String) :
    detect_language env text ∈ valid_langs
    ∧ (env.classify (detection_prompt text) = none →
        detect_language env text = "en")
    ∧ (∀ replyText, env.classify (detection_prompt text) = some replyText →
        detect_language env text =
          if valid_langs.contains (pyLower (pyStrip replyText))
          then pyLower (pyStrip replyText) else "en")
    ∧ (∀ lang, dictGet disclaimers lang disclaimer_en = spec_disclaimer_for lang)
    ∧ (∀ lang, dictGet error_messages lang error_message_en = spec_error_for lang) := by
  refine ⟨detect_language_mem env text, ?_, ?_,
    dictGet_disclaimers_spec, dictGet_error_messages_spec⟩
  · intro h
    unfold detect_language
    rw [h]
  · intro replyText h
    unfold detect_language
    rw [h]

/-- Gemini oracle for the C3 counterexample: classification always throws,
generation always succeeds with a fixed text. -/
def geminiEnvA : GeminiEnv :=
  { classify := fun _ => none, generate := fun _ => some "OK" }

/-- C3 counterexample: with neither user text nor an image, `run` still
composes the text-only prompt template (with an empty user question) and
still invokes the generative model — the claim that no prompt is composed
and no model call is made for that input shape is false on the code. -/
theorem no_input_still_composes_and_generates :
    (run geminiEnvA "" none).generate_called = true
    ∧ (run geminiEnvA "" none).content_parts
        = [ContentPart.text (health_prompt_text_only "English" "en" "")] :=
  ⟨rfl, rfl⟩

/-- C3 (amended): when the caller provides neither user text nor an image,
`run` falls through to the text-only prompt template with an empty user
question (under the English default language) and a generative-model call
is still made, with the content sequence being that single text prompt. -/
theorem no_input_text_only_prompt_generated (env : GeminiEnv) :
    (run env "" none).content_parts
      = [ContentPart.text (health_prompt_text_only "English" "en" "")]
    ∧ (run env "" none).generate_called = true :=
  ⟨rfl, rfl⟩

/-- C4: on successful generation the single uttered text appends exactly the
language-matched disclaimer after the model output and, exactly when an
image was analyzed, prepends the language-matched confirmation banner —
banner, then model output, then disclaimer. -/
theorem response_assembly_order (env : GeminiEnv) (user_message : String)
    (image : Option Image) (response_text : String)
    (h : env.generate ((run env user_message image).content_parts) = some response_text) :
    (run env user_message image).messages
      = [ if image.isSome then
            dictGet image_confirmations (run env user_message image).detected_lang
                image_confirmation_en
              ++ "\n\n"
              ++ (response_text
                  ++ dictGet disclaimers (run env user_message image).detected_lang
                      disclaimer_en)
          else
            response_text
              ++ dictGet disclaimers (run env user_message image).detected_lang
                  disclaimer_en ] := by
  have h' : env.generate (content_parts_of env user_message image) = some response_text := h
  show messages_of env user_message image = _
  unfold messages_of
  rw [h']
  rfl

/-- Gemini oracle for the C4 witness: classifier replies Telugu, generation
succeeds with text `BODY`. -/
def geminiEnvB : GeminiEnv :=
  { classify := fun _ => some "te", generate := fun _ => some "BODY" }

/-- C4 witness: at a concrete Telugu text-plus-image input the uttered text
is banner, body, disclaimer. -/
theorem response_assembly_order_witness :
    (run geminiEnvB "m" (some 0)).messages
      = [image_confirmation_te ++ "\n\n" ++ ("BODY" ++ disclaimer_te)] := by
  have h := response_assembly_order geminiEnvB "m" (some 0) "BODY" rfl
  rw [h]
  rfl

/-- C5: when the generative-model call throws, the assembler is bypassed and
the single uttered text is the static language-matched error string with no
disclaimer; for a detected (or defaulted) English language it is exactly the
English fallback sentence. -/
theorem generation_failure_fallback (env : GeminiEnv) (user_message : String)
    (image : Option Image)
    (h : env.generate ((run env user_message image).content_parts) = none) :
    (run env user_message image).messages
      = [dictGet error_messages (run env user_message image).detected_lang error_message_en]
    ∧ ((run env user_message image).detected_lang = "en" →
        (run env user_message image).messages
          = ["Sorry, I couldn't process your request right now. Please try again."]) := by
  have h' : env.generate (content_parts_of env user_message image) = none := h
  have hm : (run env user_message image).messages
      = [dictGet error_messages (detected_lang_of env user_message) error_message_en] := by
    show messages_of env user_message image = _
    unfold messages_of
    rw [h']
  refine ⟨hm, fun hen => ?_⟩
  have hd : detected_lang_of env user_message = "en" := hen
  rw [hm, hd]
  rfl

/-- Gemini oracle for the C5 witness: both Gemini calls throw. -/
def geminiEnvC : GeminiEnv :=
  { classify := fun _ => none, generate := fun _ => none }

/-- C5 witness: at a concrete input with no text (language defaults to
English) and failing generation, the uttered text is exactly the English
fallback sentence. -/
theorem generation_failure_fallback_witness :
    (run geminiEnvC "" none).messages
      = ["Sorry, I couldn't process your request right now. Please try again."] :=
  (generation_failure_fallback geminiEnvC "" none rfl).2 rfl

/-- C6: every submission with an image places the image part first and the
text prompt second; with text only, the sequence is the single text prompt. -/
theorem content_parts_image_first (env : GeminiEnv) (user_message : String) :
    (∀ img : Image, (run env user_message (some img)).content_parts
        = [ContentPart.image img,
           ContentPart.text (health_prompt_of (detected_lang_of env user_message)
              user_message (some img))])
    ∧ (run env user_message none).content_parts
        = [ContentPart.text (health_prompt_of (detected_lang_of env user_message)
            user_message none)] :=
  ⟨fun _ => rfl, rfl⟩

/-- C7: when the form's `From` or `Body` is missing or empty, the gateway
forwards nothing to the dialogue engine, sends nothing outbound, and replies
with the empty XML acknowledgment. -/
theorem missing_fields_skip_forwarding (env : GatewayEnv)
    (form_From form_Body : Option String)
    (h : form_From.getD "" = "" ∨ form_Body.getD "" = "") :
    (whatsapp_webhook env form_From form_Body).forwarded = false
    ∧ (whatsapp_webhook env form_From form_Body).sends = []
    ∧ (whatsapp_webhook env form_From form_Body).body = empty_twiml
    ∧ (whatsapp_webhook env form_From form_Body).mimetype = "text/xml" := by
  have hcond : ((form_From.getD "" != "") && (form_Body.getD "" != "")) = false := by
    rcases h with h | h <;> simp [h]
  cases hie : env.internal_exn <;> simp [whatsapp_webhook, hie, hcond]

/-- Gateway oracle for the C7 witness: Rasa always answers 200 with an empty
list; no internal exception. -/
def gatewayEnvA : GatewayEnv :=
  { post := fun _ _ => .ok 200 [], internal_exn := false }

/-- C7 witness: a concrete payload with an empty `Body` is skipped and
acknowledged. -/
theorem missing_fields_skip_forwarding_witness :
    (whatsapp_webhook gatewayEnvA (some "whatsapp:+15550100") (some "")).forwarded = false
    ∧ (whatsapp_webhook gatewayEnvA (some "whatsapp:+15550100") (some "")).sends = []
    ∧ (whatsapp_webhook gatewayEnvA (some "whatsapp:+15550100") (some "")).body = empty_twiml
    ∧ (whatsapp_webhook gatewayEnvA (some "whatsapp:+15550100") (some "")).mimetype
        = "text/xml" :=
  missing_fields_skip_forwarding gatewayEnvA (some "whatsapp:+15550100") (some "")
    (Or.inr rfl)

/-- C8: when the dialogue-engine call comes back with a non-success HTTP
status or raises, the response list is the single static fallback text and
exactly one outbound send of that fallback is attempted. -/
theorem rasa_failure_single_fallback_send (env : GatewayEnv)
    (form_From form_Body : Option String)
    (hie : env.internal_exn = false)
    (hs : form_From.getD "" ≠ "")
    (hb : form_Body.getD "" ≠ "")
    (hfail : (env.post (pyReplace (form_From.getD "") "whatsapp:" "")
        (form_Body.getD "")).isFailure = true) :
    send_message_to_rasa env (form_Body.getD "") (pyReplace (form_From.getD "") "whatsapp:" "")
        = [{ text := some rasa_fallback_text }]
    ∧ (whatsapp_webhook env form_From form_Body).sends
        = [(send_whatsapp_message_recipient (form_From.getD ""), rasa_fallback_text)] := by
  have hsend : send_message_to_rasa env (form_Body.getD "")
      (pyReplace (form_From.getD "") "whatsapp:" "")
      = [{ text := some rasa_fallback_text }] := by
    unfold send_message_to_rasa
    cases hp : env.post (pyReplace (form_From.getD "") "whatsapp:" "") (form_Body.getD "") with
    | exn => rfl
    | ok status responses =>
        rw [hp] at hfail
        have hstat : (status == 200) = false := by
          simpa [RasaPostResult.isFailure, bne] using hfail
        simp [hstat]
  refine ⟨hsend, ?_⟩
  have hcond : ((form_From.getD "" != "") && (form_Body.getD "" != "")) = true := by
    simp [hs, hb]
  simp [whatsapp_webhook, hie, hcond, hsend]

/-- Gateway oracle for the C8 witness: Rasa always answers HTTP 500; no
internal exception. -/
def gatewayEnvB : GatewayEnv :=
  { post := fun _ _ => .ok 500 [], internal_exn := false }

/-- C8 witness: at a concrete payload against an HTTP-500 dialogue engine,
the fallback is substituted and exactly one send of it is attempted. -/
theorem rasa_failure_single_fallback_send_witness :
    send_message_to_rasa gatewayEnvB "hola" "+15550100"
        = [{ text := some rasa_fallback_text }]
    ∧ (whatsapp_webhook gatewayEnvB (some "whatsapp:+15550100") (some "hola")).sends
        = [("whatsapp:+15550100", rasa_fallback_text)] :=
  rasa_failure_single_fallback_send gatewayEnvB (some "whatsapp:+15550100") (some "hola")
    rfl (by decide) (by decide) rfl

/-- C9: every inbound webhook request — internal exception or not,
forwarding failure or not — is answered with the empty TwiML body,
content type text/xml, HTTP status 200. -/
theorem webhook_always_acknowledges (env : GatewayEnv)
    (form_From form_Body : Option String) :
    (whatsapp_webhook env form_From form_Body).status = 200
    ∧ (whatsapp_webhook env form_From form_Body).mimetype = "text/xml"
    ∧ (whatsapp_webhook env form_From form_Body).body = empty_twiml := by
  cases hie : env.internal_exn <;>
    by_cases hc : ((form_From.getD "" != "") && (form_Body.getD "" != "")) = true <;>
      simp [whatsapp_webhook, hie, hc]

/-- C10: the symptom-checker action delegates to the health-advice action
and is behaviorally identical on every input. -/
theorem symptom_checker_equals_health_advice (env : GeminiEnv)
    (user_message : String) (image : Option Image) :
    ActionSymptomCheckerMultilingual.run env user_message image
      = ActionHealthAdviceMultilingual.run env user_message image :=
  rfl

end HealthBot
